import Mathlib

/-!
Verification of the contact-management assistant (handlers.py / main.py).

The command layer (`handlers.py`, `main.py`) is embedded directly from the
source.  The core data classes (`AddressBook`, `Record`, `Phone`, `Birthday`)
live in files not present in the repository snapshot, so they are modelled
from the specification (sections 3, 4.1 and 4.2); every such definition is
marked `Modelled from the spec:` in its doc comment.

Python exceptions raised by the core are represented as `Except String`
values carrying the message string; the `input_error` decorator of
handlers.py converts every caught exception into its message, so the
wrapped handlers are total functions from arguments and book to a reply
string and the updated book.  Mutation of a `Record` held inside the book
is modelled by rewriting the entry with that name.
-/

namespace ContactBot

/-- Modelled from the spec: the fixed digit count N of the phone format rule
(section 4.1 fixes "exactly N decimal digits" without naming N; we take the
conventional N = 10). -/
def phoneDigits : Nat := 10

/-- Modelled from the spec: phone format rule — exactly `phoneDigits` decimal
digits. -/
def phoneOk (s : String) : Bool :=
  s.toList.length == phoneDigits && s.toList.all Char.isDigit

/-- A calendar date at day granularity (spec section 3, "Date (Birthday)"). -/
structure BDate where
  day : Nat
  month : Nat
  year : Nat
deriving DecidableEq

/-- Gregorian leap-year rule. -/
def isLeap (y : Nat) : Bool :=
  y % 4 == 0 && (y % 100 != 0 || y % 400 == 0)

/-- Lengths of the twelve months of year `y`. -/
def monthDays (y : Nat) : List Nat :=
  [31, if isLeap y then 29 else 28, 31, 30, 31, 30, 31, 31, 30, 31, 30, 31]

/-- Days of year `y` strictly before month `m`. -/
def daysBeforeMonth (m y : Nat) : Nat :=
  ((monthDays y).take (m - 1)).sum

/-- Leap years strictly before year `y`. -/
def leapsBefore (y : Nat) : Nat :=
  (y - 1) / 4 - (y - 1) / 100 + (y - 1) / 400

/-- Rata-die day number of a date: 01.01.0001 has number 1 (a Monday in the
proleptic Gregorian calendar, so `rd d % 7` is 6 on Saturday and 0 on
Sunday). -/
def rd (d : BDate) : Nat :=
  365 * (d.year - 1) + leapsBefore d.year + daysBeforeMonth d.month d.year + d.day

/-- Number of days of month `m` in year `y`. -/
def daysInMonth (m y : Nat) : Nat :=
  (monthDays y).getD (m - 1) 31

/-- Calendar validity of a parsed date (spec section 4.1: a calendar-invalid
date such as day 31 in April is a format error). -/
def calendarOk (d m y : Nat) : Bool :=
  1 ≤ m && m ≤ 12 && 1 ≤ d && d ≤ daysInMonth m y

/-- Split a character list at every `'.'` (the separators of the fixed
birthday layout). -/
def splitOnDot : List Char → List (List Char)
  | [] => [[]]
  | c :: cs =>
    if c == '.' then [] :: splitOnDot cs
    else
      match splitOnDot cs with
      | [] => [[c]]
      | w :: ws => (c :: w) :: ws

/-- Numeric value of a list of decimal digit characters. -/
def digitsToNat (l : List Char) : Nat :=
  l.foldl (fun n c => 10 * n + (c.toNat - 48)) 0

/-- Modelled from the spec: parsing of the fixed birthday text layout
`DD.MM.YYYY` (section 4.1); any layout deviation or calendar-invalid date is
a format error, represented by `none`. -/
def parseBirthday (s : String) : Option BDate :=
  match splitOnDot s.toList with
  | [ds, ms, ys] =>
    if ds.length == 2 && ms.length == 2 && ys.length == 4 &&
       ds.all Char.isDigit && ms.all Char.isDigit && ys.all Char.isDigit then
      if calendarOk (digitsToNat ds) (digitsToNat ms) (digitsToNat ys) then
        some ⟨digitsToNat ds, digitsToNat ms, digitsToNat ys⟩
      else none
    else none
  | _ => none

/-- Two-digit zero-padded rendering of a day or month number. -/
def pad2 (n : Nat) : String :=
  if n < 10 then "0" ++ toString n else toString n

/-- Modelled from the spec: rendering of a stored birthday back to its
`DD.MM.YYYY` text (section 8, round-trip property). -/
def BDate.render (b : BDate) : String :=
  pad2 b.day ++ "." ++ pad2 b.month ++ "." ++ toString b.year

/-- Python renders the attribute `record.birthday` inside an f-string: a
missing birthday prints as `None`, a stored one via its text rendering. -/
def renderOptBD : Option BDate → String
  | none => "None"
  | some b => b.render

/-- Modelled from the spec: one Contact — name, ordered phone list, optional
birthday (spec section 3). -/
structure Record where
  name : String
  phones : List String
  birthday : Option BDate
deriving DecidableEq

/-- Replace the first occurrence of `old` by `new`, preserving position
(spec section 4.1, `edit_phone`). -/
def replaceFirst : List String → String → String → List String
  | [], _, _ => []
  | p :: ps, old, new => if p == old then new :: ps else p :: replaceFirst ps old new

/-- Remove the first occurrence of `v` (spec section 4.1, `remove_phone`). -/
def removeFirst : List String → String → List String
  | [], _ => []
  | p :: ps, v => if p == v then ps else p :: removeFirst ps v

/-- Modelled from the spec: `Contact.add_phone` validates the phone format
(`FormatError` if invalid) and otherwise appends — the Contact itself does
not reject duplicates (spec section 4.1). -/
def Record.add_phone (r : Record) (v : String) : Except String Record :=
  if phoneOk v then .ok { r with phones := r.phones ++ [v] }
  else .error "Error: Phone number must contain exactly 10 digits."

/-- Modelled from the spec: `Contact.find_phone` returns the matching entry
by exact value or nothing (spec section 4.1). -/
def Record.find_phone (r : Record) (v : String) : Option String :=
  r.phones.find? (fun p => p == v)

/-- Modelled from the spec: `Contact.edit_phone` validates the new value's
format, fails with `NotFoundError` if the old value is absent, otherwise
replaces that entry in place preserving position (spec section 4.1). -/
def Record.edit_phone (r : Record) (old new : String) : Except String Record :=
  if phoneOk new then
    if r.phones.contains old then
      .ok { r with phones := replaceFirst r.phones old new }
    else .error "Error: Phone number not found."
  else .error "Error: Phone number must contain exactly 10 digits."

/-- Modelled from the spec: `Contact.remove_phone` fails with `NotFoundError`
if absent, otherwise removes the first matching entry (spec section 4.1). -/
def Record.remove_phone (r : Record) (v : String) : Except String Record :=
  if r.phones.contains v then .ok { r with phones := removeFirst r.phones v }
  else .error "Error: Phone number not found."

/-- Modelled from the spec: `Contact.add_birthday` parses the text against
the fixed date format, fails with `FormatError` on malformed input, and
overwrites any existing birthday (spec section 4.1). -/
def Record.add_birthday (r : Record) (text : String) : Except String Record :=
  match parseBirthday text with
  | some b => .ok { r with birthday := some b }
  | none => .error "Error: Invalid date format. Use DD.MM.YYYY."

/-- Modelled from the spec: the human-readable line for one Contact — name,
comma-joined phone list, and birthday if present (spec section 4.1,
Rendering). -/
def Record.render (r : Record) : String :=
  "Contact name: " ++ r.name ++ ", phones: " ++ String.intercalate ", " r.phones ++
    (match r.birthday with
     | some b => ", birthday: " ++ b.render
     | none => "")

/-- Modelled from the spec: the Directory is a mapping from name to Contact
with insertion order preserved for enumeration (spec section 3); embedded as
the list of Contacts in insertion order, names unique by the Directory
invariant. -/
abbrev AddressBook : Type := List Record

/-- Modelled from the spec: `Directory.find` — exact-key lookup, nothing if
absent (spec section 4.2). -/
def findRecord (name : String) (book : AddressBook) : Option Record :=
  List.find? (fun r => r.name == name) book

/-- Modelled from the spec: `Directory.add` fails with `ConflictError` if the
name already exists as a key, otherwise inserts at the end (insertion order,
spec section 4.2). -/
def addRecord (rec : Record) (book : AddressBook) : Except String AddressBook :=
  if (findRecord rec.name book).isSome then
    .error "Error: Contact with this name already exists."
  else .ok (List.append book [rec])

/-- In-place mutation of the Record stored under `name`: the book with that
entry rewritten by `f` (names are unique, so at most one entry changes). -/
def updateRecord (name : String) (f : Record → Record) (book : AddressBook) : AddressBook :=
  List.map (fun r => if r.name == name then f r else r) book

/-- Whether the this-year (or rolled-to-next-year) occurrence of birthday `b`
falls within `[today, today + 7]` inclusive (spec section 4.2). -/
def occurrenceRD (today : BDate) (b : BDate) : Nat :=
  let thisYear := rd ⟨b.day, b.month, today.year⟩
  if thisYear < rd today then rd ⟨b.day, b.month, today.year + 1⟩ else thisYear

/-- The window test of `upcoming_birthdays` (spec section 4.2): occurrence in
`[today, today + 7]`, both ends included. -/
def inWindow (today b : BDate) : Bool :=
  rd today ≤ occurrenceRD today b && occurrenceRD today b ≤ rd today + 7

/-- Weekend policy (spec section 4.2): a Saturday occurrence is shifted two
days and a Sunday occurrence one day forward, to the following Monday. -/
def congDateRD (today b : BDate) : Nat :=
  let o := occurrenceRD today b
  o + (if o % 7 == 6 then 2 else if o % 7 == 0 then 1 else 0)

/-- A contact is eligible for the upcoming list iff it has a birthday whose
occurrence falls in the window (spec section 4.2). -/
def eligible (today : BDate) (r : Record) : Bool :=
  match r.birthday with
  | some b => inWindow today b
  | none => false

/-- Sort key of the upcoming list: congratulation date (0 for the impossible
birthday-less case). -/
def congOf (today : BDate) (r : Record) : Nat :=
  match r.birthday with
  | some b => congDateRD today b
  | none => 0

/-- Result ordering of `upcoming_birthdays`: ascending by congratulation
date, ties broken by name ascending (spec section 4.2). -/
def recLE (today : BDate) (r1 r2 : Record) : Bool :=
  congOf today r1 < congOf today r2 ||
    (congOf today r1 == congOf today r2 && decide (r1.name ≤ r2.name))

/-- Insertion step of the stable insertion sort used for the result
ordering. -/
def insertSorted (le : Record → Record → Bool) (r : Record) : List Record → List Record
  | [] => [r]
  | x :: xs => if le r x then r :: x :: xs else x :: insertSorted le r xs

/-- Insertion sort of the upcoming list. -/
def sortRecords (le : Record → Record → Bool) : List Record → List Record
  | [] => []
  | x :: xs => insertSorted le x (sortRecords le xs)

/-- Modelled from the spec: `AddressBook.get_upcoming_birthdays` (spec
section 4.2) — the contacts whose birthday occurrence falls within the
7-day window, ordered by congratulation date then name.  The handler
`birthdays` iterates the result accessing `.name`, `.phones` and
`.birthday`, so the elements are the stored Contacts themselves; `today` is
the implicit current date, made explicit here. -/
def get_upcoming_birthdays (today : BDate) (book : AddressBook) : List Record :=
  sortRecords (recLE today) (List.filter (eligible today) book)

/-- handlers.py `add_contact` (decorated by `input_error`): the reply string
and the book after the call.  Caught exceptions become their message, with
the book unchanged (every raising path precedes mutation). -/
def add_contact (args : List String) (book : AddressBook) : String × AddressBook :=
  match args with
  | name :: phone :: optional_args =>
    match findRecord name book with
    | some existing_record =>
      if existing_record.phones.any (fun p => phone == p) then
        ("Contact with this name and phone number already exists.", book)
      else
        match existing_record.add_phone phone with
        | .ok r2 => ("Contact updated.", updateRecord name (fun _ => r2) book)
        | .error e => (e, book)
    | none =>
      match Record.add_phone ⟨name, [], none⟩ phone with
      | .error e => (e, book)
      | .ok rec1 =>
        match optional_args.head? with
        | some btext =>
          if btext == "" then
            match addRecord rec1 book with
            | .ok b2 => ("Contact added.", b2)
            | .error e => (e, book)
          else
            match rec1.add_birthday btext with
            | .error e => (e, book)
            | .ok rec2 =>
              match addRecord rec2 book with
              | .ok b2 => ("Contact added.", b2)
              | .error e => (e, book)
        | none =>
          match addRecord rec1 book with
          | .ok b2 => ("Contact added.", b2)
          | .error e => (e, book)
  | _ => ("Error: Give me name and phone please.", book)

/-- handlers.py `change_contact` (decorated by `input_error`): three
arguments edit a phone, two arguments remove one, anything else is an
argument-count error message. -/
def change_contact (args : List String) (book : AddressBook) : String × AddressBook :=
  match args with
  | [name, old_phone, new_phone] =>
    match findRecord name book with
    | some record =>
      match record.edit_phone old_phone new_phone with
      | .ok r2 => ("Phone number updated.", updateRecord name (fun _ => r2) book)
      | .error e => (e, book)
    | none => ("Contact not found.", book)
  | [name, phone_to_remove] =>
    match findRecord name book with
    | some record =>
      if (record.find_phone phone_to_remove).isSome then
        match record.remove_phone phone_to_remove with
        | .ok r2 => ("Phone number removed.", updateRecord name (fun _ => r2) book)
        | .error e => (e, book)
      else ("Phone number not found in the contact.", book)
    | none => ("Contact not found.", book)
  | _ => ("Error: Give me name, old phone and new phone please or name and phone to remove.", book)

/-- handlers.py `show_phone`: the rendered phone list of one contact. -/
def show_phone (args : List String) (book : AddressBook) : String × AddressBook :=
  match args with
  | [name] =>
    match findRecord name book with
    | some record => (name ++ ": " ++ String.intercalate ", " record.phones, book)
    | none => ("Contact not found.", book)
  | _ => ("Error: Give me name, please.", book)

/-- handlers.py `show_all`: the empty signal for an empty book, otherwise
one rendered line per stored contact joined by newlines, in storage
enumeration order. -/
def show_all (book : AddressBook) : String :=
  if List.isEmpty book then "The address book is empty."
  else String.intercalate "\n" (List.map Record.render book)

/-- handlers.py `add_birthday` (the command handler, distinct from
`Record.add_birthday`). -/
def add_birthday (args : List String) (book : AddressBook) : String × AddressBook :=
  match args with
  | [name, birthday] =>
    match findRecord name book with
    | some record =>
      match record.add_birthday birthday with
      | .ok r2 => ("Birthday added.", updateRecord name (fun _ => r2) book)
      | .error e => (e, book)
    | none => ("Contact not found.", book)
  | _ => ("Error: Give me name and birthday please.", book)

/-- handlers.py `show_birthday`: renders the `record.birthday` attribute,
which Python prints as `None` when no birthday is stored. -/
def show_birthday (args : List String) (book : AddressBook) : String × AddressBook :=
  match args with
  | [name] =>
    match findRecord name book with
    | some record => (name ++ ": " ++ renderOptBD record.birthday, book)
    | none => ("Contact not found.", book)
  | _ => ("Error: Give me name, please.", book)

/-- One output line of the `birthdays` handler (handlers.py line 192): it
interpolates `record.name`, `record.birthday` and the phone list. -/
def birthdayLine (r : Record) : String :=
  "Upcoming birthday within the next week: " ++ r.name ++ " - " ++
    renderOptBD r.birthday ++ ", Phones: " ++ String.intercalate ", " r.phones

/-- handlers.py `birthdays`: the none-signal when the upcoming list is
empty, otherwise one line per upcoming record.  `today` is the implicit
current date of `get_upcoming_birthdays`, made explicit. -/
def birthdays (today : BDate) (_args : List String) (book : AddressBook) : String × AddressBook :=
  let up := get_upcoming_birthdays today book
  if List.isEmpty up then ("No birthdays in the next 7 days.", book)
  else (String.intercalate "\n" (List.map birthdayLine up), book)

/-- main.py `handle_action`: the dispatch table from action word to
handler. -/
def handle_action (today : BDate) (action : String) (args : List String)
    (book : AddressBook) : String × AddressBook :=
  match action with
  | "hello" => ("How can I help you?", book)
  | "add" => add_contact args book
  | "change" => change_contact args book
  | "phone" => show_phone args book
  | "all" => (show_all book, book)
  | "add-birthday" => add_birthday args book
  | "show-birthday" => show_birthday args book
  | "birthdays" => birthdays today args book
  | "close" => ("Good bye!", book)
  | "exit" => ("Good bye!", book)
  | "bye" => ("Good bye!", book)
  | _ => ("Invalid command. Available commands are: hello, add, change, phone, all, add-birthday, show-birthday, birthdays, close, exit, bye.", book)

/-- Python `str.split()` with no separator: maximal runs of
non-whitespace characters; accumulates the current word reversed in
`acc`. -/
def splitWordsAux : List Char → List Char → List (List Char)
  | [], acc => if acc.isEmpty then [] else [acc.reverse]
  | c :: cs, acc =>
    if c.isWhitespace then
      if acc.isEmpty then splitWordsAux cs []
      else acc.reverse :: splitWordsAux cs []
    else splitWordsAux cs (c :: acc)

/-- The whitespace-separated tokens of a line (Python `line.split()`). -/
def splitWords (l : List Char) : List (List Char) :=
  splitWordsAux l []

/-- Python `str.strip()` at character-list level. -/
def stripL (l : List Char) : List Char :=
  ((l.dropWhile Char.isWhitespace).reverse.dropWhile Char.isWhitespace).reverse

/-- main.py `parse_input`: `action, *args = user_input.split()` followed by
`action.strip().lower()`.  With no tokens the unpacking raises an uncaught
`ValueError`, modelled as `none`. -/
def parse_input (s : String) : Option (String × List String) :=
  match splitWords s.toList with
  | [] => none
  | a :: args => some (String.mk ((stripL a).map Char.toLower), args.map String.mk)

/-- One iteration of the main loop body: parse the line and dispatch
(`none` models the uncaught `ValueError` of `parse_input` on a tokenless
line). -/
def processLine (today : BDate) (line : String) (book : AddressBook) :
    Option (String × AddressBook) :=
  match parse_input line with
  | none => none
  | some (action, args) => some (handle_action today action args book)

/-- Whether `p` occurs at the start of `l`. -/
def startsWithL : List Char → List Char → Bool
  | _, [] => true
  | [], _ :: _ => false
  | c :: cs, p :: ps => c == p && startsWithL cs ps

/-- Whether `p` occurs as a contiguous sublist of `l`. -/
def containsSub : List Char → List Char → Bool
  | [], p => p.isEmpty
  | c :: t, p => startsWithL (c :: t) p || containsSub t p

/-- Substring occurrence test on strings, used to state what a rendered
reply does (not) report. -/
def strContains (s pat : String) : Bool :=
  containsSub s.toList pat.toList

/-!  ## Theorems  -/

/-- C1: the upsert behaviour of `add_contact` — a fresh name is stored as a
brand-new contact (with the optional birthday when given) with reply
"Contact added."; an existing name with a new phone gets the phone appended
with reply "Contact updated."; an existing name with the same phone verbatim
yields the duplicate signal. -/
theorem add_contact_upsert :
    (∀ (book : AddressBook) (name phone : String),
        findRecord name book = none → phoneOk phone = true →
        add_contact [name, phone] book =
          ("Contact added.", book ++ [⟨name, [phone], none⟩])) ∧
    (∀ (book : AddressBook) (name phone btext : String) (b : BDate),
        findRecord name book = none → phoneOk phone = true →
        parseBirthday btext = some b →
        add_contact [name, phone, btext] book =
          ("Contact added.", book ++ [⟨name, [phone], some b⟩])) ∧
    (∀ (book : AddressBook) (name phone : String) (rest : List String) (r : Record),
        findRecord name book = some r → phone ∉ r.phones → phoneOk phone = true →
        add_contact (name :: phone :: rest) book =
          ("Contact updated.",
            updateRecord name (fun _ => { r with phones := r.phones ++ [phone] }) book)) ∧
    (∀ (book : AddressBook) (name phone : String) (rest : List String) (r : Record),
        findRecord name book = some r → phone ∈ r.phones →
        (add_contact (name :: phone :: rest) book).1 =
          "Contact with this name and phone number already exists.") := by
  refine ⟨?_, ?_, ?_, ?_⟩
  · intro book name phone hf hp
    simp [add_contact, hf, Record.add_phone, hp, addRecord]
  · intro book name phone btext b hf hp hb
    have hne : btext ≠ "" := by
      intro he
      rw [he] at hb
      exact Option.noConfusion ((by decide : parseBirthday "" = none) ▸ hb)
    simp [add_contact, hf, Record.add_phone, hp, hne, Record.add_birthday, hb, addRecord]
  · intro book name phone rest r hf hnp hp
    have hany : r.phones.any (fun p => phone == p) = false := by
      cases ha : r.phones.any (fun p => phone == p) with
      | false => rfl
      | true =>
        obtain ⟨p, hmem, hpe⟩ := List.any_eq_true.mp ha
        exact absurd (beq_iff_eq.mp hpe ▸ hmem) hnp
    simp [add_contact, hf, hany, Record.add_phone, hp]
  · intro book name phone rest r hf hmp
    have hany : r.phones.any (fun p => phone == p) = true :=
      List.any_eq_true.mpr ⟨phone, hmp, beq_self_eq_true phone⟩
    simp [add_contact, hf, hany]

/-- C1 witness: the three mutating branches and the duplicate branch of
`add_contact_upsert` exercised on concrete inputs. -/
theorem add_contact_upsert_witness :
    add_contact ["Anna", "1234567890"] [] =
      ("Contact added.", ([] : AddressBook) ++ [⟨"Anna", ["1234567890"], none⟩]) ∧
    add_contact ["Bob", "0987654321", "01.01.2000"] [] =
      ("Contact added.", ([] : AddressBook) ++ [⟨"Bob", ["0987654321"], some ⟨1, 1, 2000⟩⟩]) ∧
    add_contact ["Anna", "0000000000"] [⟨"Anna", ["1234567890"], none⟩] =
      ("Contact updated.",
        updateRecord "Anna" (fun _ => { Record.mk "Anna" ["1234567890"] none with
          phones := ["1234567890"] ++ ["0000000000"] }) [⟨"Anna", ["1234567890"], none⟩]) ∧
    (add_contact ["Anna", "1234567890"] [⟨"Anna", ["1234567890"], none⟩]).1 =
      "Contact with this name and phone number already exists." :=
  ⟨add_contact_upsert.1 [] "Anna" "1234567890" rfl (by decide),
   add_contact_upsert.2.1 [] "Bob" "0987654321" "01.01.2000" ⟨1, 1, 2000⟩ rfl (by decide)
     (by decide),
   add_contact_upsert.2.2.1 [⟨"Anna", ["1234567890"], none⟩] "Anna" "0000000000" []
     ⟨"Anna", ["1234567890"], none⟩ rfl (by decide) (by decide),
   add_contact_upsert.2.2.2 [⟨"Anna", ["1234567890"], none⟩] "Anna" "1234567890" []
     ⟨"Anna", ["1234567890"], none⟩ rfl (by decide)⟩

/-- C2: when the name exists and the phone is already present verbatim,
`add_contact` returns only the duplicate message and the whole book is left
unchanged. -/
theorem add_contact_duplicate_frame :
    ∀ (book : AddressBook) (name phone : String) (rest : List String) (r : Record),
      findRecord name book = some r → phone ∈ r.phones →
      add_contact (name :: phone :: rest) book =
        ("Contact with this name and phone number already exists.", book) := by
  intro book name phone rest r hf hmp
  have hany : r.phones.any (fun p => phone == p) = true :=
    List.any_eq_true.mpr ⟨phone, hmp, beq_self_eq_true phone⟩
  simp [add_contact, hf, hany]

/-- C2 witness: the duplicate branch leaves a concrete two-contact book
untouched. -/
theorem add_contact_duplicate_frame_witness :
    add_contact ["Anna", "1234567890", "15.03.1990"]
        [⟨"Bob", ["0987654321"], none⟩, ⟨"Anna", ["1234567890"], some ⟨1, 2, 2003⟩⟩] =
      ("Contact with this name and phone number already exists.",
        [⟨"Bob", ["0987654321"], none⟩, ⟨"Anna", ["1234567890"], some ⟨1, 2, 2003⟩⟩]) :=
  add_contact_duplicate_frame
    [⟨"Bob", ["0987654321"], none⟩, ⟨"Anna", ["1234567890"], some ⟨1, 2, 2003⟩⟩]
    "Anna" "1234567890" ["15.03.1990"] ⟨"Anna", ["1234567890"], some ⟨1, 2, 2003⟩⟩
    (by decide) (by decide)

/-- C5: `show_all` returns the explicit empty signal on an empty book, and
otherwise one rendered line per stored contact, joined by newlines in
storage enumeration order. -/
theorem show_all_spec :
    (∀ book : AddressBook, book = [] → show_all book = "The address book is empty.") ∧
    (∀ book : AddressBook, book ≠ [] →
        show_all book = String.intercalate "\n" (List.map Record.render book)) := by
  constructor
  · intro book hb
    rw [hb]
    rfl
  · intro book hb
    have : List.isEmpty book = false := by
      cases book with
      | nil => exact absurd rfl hb
      | cons x xs => rfl
    simp [show_all, this]

/-- C5 witness: empty signal on the empty book, rendered lines on a
two-contact book. -/
theorem show_all_spec_witness :
    show_all [] = "The address book is empty." ∧
    show_all [⟨"Anna", ["1234567890"], some ⟨15, 3, 1990⟩⟩, ⟨"Bob", ["0987654321"], none⟩] =
      String.intercalate "\n"
        (List.map Record.render
          [⟨"Anna", ["1234567890"], some ⟨15, 3, 1990⟩⟩, ⟨"Bob", ["0987654321"], none⟩]) :=
  ⟨show_all_spec.1 [] rfl,
   show_all_spec.2 [⟨"Anna", ["1234567890"], some ⟨15, 3, 1990⟩⟩, ⟨"Bob", ["0987654321"], none⟩]
     (by decide)⟩

/-- C6: `change_contact` with three arguments replaces the old phone by the
new one in place; with two arguments it removes the given phone; in either
arity an absent name yields "Contact not found." with the book unchanged. -/
theorem change_contact_spec :
    (∀ (book : AddressBook) (name old new : String),
        findRecord name book = none →
        change_contact [name, old, new] book = ("Contact not found.", book)) ∧
    (∀ (book : AddressBook) (name ph : String),
        findRecord name book = none →
        change_contact [name, ph] book = ("Contact not found.", book)) ∧
    (∀ (book : AddressBook) (name old new : String) (r : Record),
        findRecord name book = some r → phoneOk new = true → old ∈ r.phones →
        change_contact [name, old, new] book =
          ("Phone number updated.",
            updateRecord name (fun _ => { r with phones := replaceFirst r.phones old new }) book)) ∧
    (∀ (book : AddressBook) (name ph : String) (r : Record),
        findRecord name book = some r → ph ∈ r.phones →
        change_contact [name, ph] book =
          ("Phone number removed.",
            updateRecord name (fun _ => { r with phones := removeFirst r.phones ph }) book)) := by
  refine ⟨?_, ?_, ?_, ?_⟩
  · intro book name old new hf
    simp [change_contact, hf]
  · intro book name ph hf
    simp [change_contact, hf]
  · intro book name old new r hf hok hmem
    have hc : r.phones.contains old = true := by
      simpa using hmem
    simp [change_contact, hf, Record.edit_phone, hok, hc, hmem]
  · intro book name ph r hf hmem
    have hfind : (r.find_phone ph).isSome = true := by
      simp only [Record.find_phone]
      rw [List.find?_isSome]
      exact ⟨ph, hmem, beq_self_eq_true ph⟩
    have hc : r.phones.contains ph = true := by
      simpa using hmem
    simp [change_contact, hf, hfind, Record.remove_phone, hc, hmem]

/-- C6 witness: the four branches of `change_contact_spec` on concrete
books. -/
theorem change_contact_spec_witness :
    change_contact ["Anna", "1234567890", "0000000000"] [] = ("Contact not found.", []) ∧
    change_contact ["Anna", "1234567890"] [] = ("Contact not found.", []) ∧
    change_contact ["Anna", "1234567890", "0000000000"] [⟨"Anna", ["1234567890"], none⟩] =
      ("Phone number updated.",
        updateRecord "Anna" (fun _ => { Record.mk "Anna" ["1234567890"] none with
          phones := replaceFirst ["1234567890"] "1234567890" "0000000000" })
          [⟨"Anna", ["1234567890"], none⟩]) ∧
    change_contact ["Anna", "1234567890"] [⟨"Anna", ["1234567890"], none⟩] =
      ("Phone number removed.",
        updateRecord "Anna" (fun _ => { Record.mk "Anna" ["1234567890"] none with
          phones := removeFirst ["1234567890"] "1234567890" })
          [⟨"Anna", ["1234567890"], none⟩]) :=
  ⟨change_contact_spec.1 [] "Anna" "1234567890" "0000000000" rfl,
   change_contact_spec.2.1 [] "Anna" "1234567890" rfl,
   change_contact_spec.2.2.1 [⟨"Anna", ["1234567890"], none⟩] "Anna" "1234567890" "0000000000"
     ⟨"Anna", ["1234567890"], none⟩ rfl (by decide) (by decide),
   change_contact_spec.2.2.2 [⟨"Anna", ["1234567890"], none⟩] "Anna" "1234567890"
     ⟨"Anna", ["1234567890"], none⟩ rfl (by decide)⟩

/-- C7: `add_birthday` on an existing name stores the parsed birthday on
that contact and reports success; on an absent name it reports the
not-found signal with the book entirely unchanged. -/
theorem add_birthday_spec :
    (∀ (book : AddressBook) (name btext : String) (r : Record) (b : BDate),
        findRecord name book = some r → parseBirthday btext = some b →
        add_birthday [name, btext] book =
          ("Birthday added.",
            updateRecord name (fun _ => { r with birthday := some b }) book)) ∧
    (∀ (book : AddressBook) (name btext : String),
        findRecord name book = none →
        add_birthday [name, btext] book = ("Contact not found.", book)) := by
  constructor
  · intro book name btext r b hf hb
    simp [add_birthday, hf, Record.add_birthday, hb]
  · intro book name btext hf
    simp [add_birthday, hf]

/-- C7 witness: `add_birthday` on a present and on an absent name. -/
theorem add_birthday_spec_witness :
    add_birthday ["Anna", "15.03.1990"] [⟨"Anna", ["1234567890"], none⟩] =
      ("Birthday added.",
        updateRecord "Anna" (fun _ => { Record.mk "Anna" ["1234567890"] none with
          birthday := some ⟨15, 3, 1990⟩ }) [⟨"Anna", ["1234567890"], none⟩]) ∧
    add_birthday ["Bob", "15.03.1990"] [⟨"Anna", ["1234567890"], none⟩] =
      ("Contact not found.", [⟨"Anna", ["1234567890"], none⟩]) :=
  ⟨add_birthday_spec.1 [⟨"Anna", ["1234567890"], none⟩] "Anna" "15.03.1990"
     ⟨"Anna", ["1234567890"], none⟩ ⟨15, 3, 1990⟩ rfl (by decide),
   add_birthday_spec.2 [⟨"Anna", ["1234567890"], none⟩] "Bob" "15.03.1990" (by decide)⟩

/-- C10: `show_birthday` on an existing contact without a birthday renders
"name: None"; more generally on an existing contact it renders the stored
birthday attribute, and the not-found signal appears only when the name is
absent. -/
theorem show_birthday_spec :
    (∀ (book : AddressBook) (name : String) (r : Record),
        findRecord name book = some r → r.birthday = none →
        show_birthday [name] book = (name ++ ": None", book)) ∧
    (∀ (book : AddressBook) (name : String) (r : Record),
        findRecord name book = some r →
        show_birthday [name] book = (name ++ ": " ++ renderOptBD r.birthday, book)) ∧
    (∀ (book : AddressBook) (name : String),
        findRecord name book = none →
        show_birthday [name] book = ("Contact not found.", book)) := by
  refine ⟨?_, ?_, ?_⟩
  · intro book name r hf hb
    simp [show_birthday, hf, hb, renderOptBD, String.append_assoc]
  · intro book name r hf
    simp [show_birthday, hf]
  · intro book name hf
    simp [show_birthday, hf]

/-- C10 witness: the "None" rendering, the general rendering, and the
not-found branch on concrete books. -/
theorem show_birthday_spec_witness :
    show_birthday ["Anna"] [⟨"Anna", ["1234567890"], none⟩] =
      ("Anna" ++ ": None", [⟨"Anna", ["1234567890"], none⟩]) ∧
    show_birthday ["Bob"] [⟨"Bob", ["0987654321"], some ⟨15, 3, 1990⟩⟩] =
      ("Bob" ++ ": " ++ renderOptBD (some ⟨15, 3, 1990⟩),
        [⟨"Bob", ["0987654321"], some ⟨15, 3, 1990⟩⟩]) ∧
    show_birthday ["Bob"] [⟨"Anna", ["1234567890"], none⟩] =
      ("Contact not found.", [⟨"Anna", ["1234567890"], none⟩]) :=
  ⟨show_birthday_spec.1 [⟨"Anna", ["1234567890"], none⟩] "Anna"
     ⟨"Anna", ["1234567890"], none⟩ rfl rfl,
   show_birthday_spec.2.1 [⟨"Bob", ["0987654321"], some ⟨15, 3, 1990⟩⟩] "Bob"
     ⟨"Bob", ["0987654321"], some ⟨15, 3, 1990⟩⟩ rfl,
   show_birthday_spec.2.2 [⟨"Anna", ["1234567890"], none⟩] "Bob" (by decide)⟩

lemma filter_false_nil {α : Type} (p : α → Bool) :
    ∀ l : List α, (∀ a ∈ l, p a = false) → List.filter p l = [] := by
  intro l h
  induction l with
  | nil => rfl
  | cons x xs ih =>
    have hx := h x (List.mem_cons_self x xs)
    simp only [List.filter_cons, hx, Bool.false_eq_true, if_false]
    exact ih (fun a ha => h a (List.mem_cons_of_mem x ha))

/-- C8: when no stored contact has a birthday whose occurrence falls inside
the 7-day window, `birthdays` returns the explicit none-signal, not an empty
rendering. -/
theorem birthdays_none_signal :
    ∀ (today : BDate) (args : List String) (book : AddressBook),
      (∀ r ∈ book, ∀ b, r.birthday = some b → inWindow today b = false) →
      birthdays today args book = ("No birthdays in the next 7 days.", book) := by
  intro today args book h
  have hel : ∀ r ∈ book, eligible today r = false := by
    intro r hr
    unfold eligible
    cases hb : r.birthday with
    | none => rfl
    | some b => exact h r hr b hb
  have hfil : List.filter (eligible today) book = [] := filter_false_nil _ book hel
  simp [birthdays, get_upcoming_birthdays, hfil, sortRecords]

/-- C8 witness: a book whose two contacts have no birthday and an
out-of-window birthday yields the none-signal. -/
theorem birthdays_none_signal_witness :
    birthdays ⟨14, 3, 2025⟩ []
        [⟨"Bob", ["0987654321"], none⟩, ⟨"Anna", ["1234567890"], some ⟨1, 1, 1990⟩⟩] =
      ("No birthdays in the next 7 days.",
        [⟨"Bob", ["0987654321"], none⟩, ⟨"Anna", ["1234567890"], some ⟨1, 1, 1990⟩⟩]) :=
  birthdays_none_signal ⟨14, 3, 2025⟩ []
    [⟨"Bob", ["0987654321"], none⟩, ⟨"Anna", ["1234567890"], some ⟨1, 1, 1990⟩⟩]
    (by
      intro r hr b hb
      rcases List.mem_cons.mp hr with rfl | hr2
      · exact Option.noConfusion hb
      · rcases List.mem_singleton.mp hr2 with rfl
        injection hb with hb2
        subst hb2
        decide)

lemma splitWordsAux_no_ws :
    ∀ (l acc : List Char), (∀ c ∈ acc, c.isWhitespace = false) →
      ∀ w ∈ splitWordsAux l acc, ∀ c ∈ w, c.isWhitespace = false := by
  intro l
  induction l with
  | nil =>
    intro acc hacc w hw c hc
    by_cases hae : acc.isEmpty = true
    · simp [splitWordsAux, hae] at hw
    · have hae' : acc.isEmpty = false := Bool.eq_false_iff.mpr hae
      simp [splitWordsAux, hae'] at hw
      subst hw
      exact hacc c (List.mem_reverse.mp hc)
  | cons ch cs ih =>
    intro acc hacc w hw c hc
    by_cases hws : ch.isWhitespace = true
    · by_cases hae : acc.isEmpty = true
      · simp only [splitWordsAux, hws, hae, if_true] at hw
        exact ih [] (by intro x hx; cases hx) w hw c hc
      · have hae' : acc.isEmpty = false := Bool.eq_false_iff.mpr hae
        simp only [splitWordsAux, hws, hae', Bool.false_eq_true, if_true, if_false,
          List.mem_cons] at hw
        rcases hw with rfl | hw2
        · exact hacc c (List.mem_reverse.mp hc)
        · exact ih [] (by intro x hx; cases hx) w hw2 c hc
    · have hws' : ch.isWhitespace = false := Bool.eq_false_iff.mpr hws
      simp only [splitWordsAux, hws', Bool.false_eq_true, if_false] at hw
      refine ih (ch :: acc) ?_ w hw c hc
      intro x hx
      rcases List.mem_cons.mp hx with rfl | hx2
      · exact hws'
      · exact hacc x hx2

lemma splitWords_no_ws (l : List Char) :
    ∀ w ∈ splitWords l, ∀ c ∈ w, c.isWhitespace = false :=
  splitWordsAux_no_ws l [] (by intro c hc; cases hc)

lemma dropWhile_ws_id :
    ∀ l : List Char, (∀ c ∈ l, c.isWhitespace = false) →
      l.dropWhile Char.isWhitespace = l := by
  intro l h
  cases l with
  | nil => rfl
  | cons x xs =>
    have hx := h x (List.mem_cons_self x xs)
    simp [List.dropWhile_cons, hx]

lemma stripL_no_ws (w : List Char) (h : ∀ c ∈ w, c.isWhitespace = false) :
    stripL w = w := by
  unfold stripL
  rw [dropWhile_ws_id w h,
    dropWhile_ws_id w.reverse (fun c hc => h c (List.mem_reverse.mp hc)),
    List.reverse_reverse]

/-- C9 counterexample: a whitespace-only line is a non-empty input line on
which `parse_input` does not return a parse at all (Python raises an
uncaught `ValueError` unpacking the empty token list), refuting the claim
for every non-empty line. -/
theorem parse_input_blank_line_raises :
    ¬ (∀ s : String, s ≠ "" → ∃ p, parse_input s = some p) := by
  intro h
  obtain ⟨p, hp⟩ := h " " (by decide)
  have hnone : parse_input " " = none := by decide
  rw [hnone] at hp
  exact Option.noConfusion hp

/-- C9 (amended): on every input line containing at least one token,
`parse_input` returns the first whitespace-separated token lowercased and
the remaining tokens verbatim; a line with no tokens raises instead. -/
theorem parse_input_first_token_lower :
    ∀ (s : String) (a : List Char) (args : List (List Char)),
      splitWords s.toList = a :: args →
      parse_input s = some (String.mk (a.map Char.toLower), args.map String.mk) := by
  intro s a args h
  have hnw : ∀ c ∈ a, c.isWhitespace = false :=
    splitWords_no_ws s.toList a (h ▸ List.mem_cons_self a args)
  simp only [parse_input, h]
  rw [stripL_no_ws a hnw]

/-- C9 witness: a mixed-case command line parsed into a lowercased action
word and verbatim arguments. -/
theorem parse_input_first_token_lower_witness :
    parse_input "ADD Anna 0501234567" =
      some (String.mk ("ADD".toList.map Char.toLower),
        (["Anna".toList, "0501234567".toList]).map String.mk) :=
  parse_input_first_token_lower "ADD Anna 0501234567" "ADD".toList
    ["Anna".toList, "0501234567".toList] (by decide)

/-- C3 counterexample: the empty input line makes `parse_input` raise an
uncaught `ValueError` (modelled as `none`), so line processing does not
always produce a reply string. -/
theorem processLine_blank_line_crashes :
    ¬ (∀ (today : BDate) (line : String) (book : AddressBook),
          ∃ out, processLine today line book = some out) := by
  intro h
  obtain ⟨out, hout⟩ := h ⟨1, 1, 2025⟩ "" []
  have hnone : processLine ⟨1, 1, 2025⟩ "" [] = none := by decide
  rw [hnone] at hout
  exact Option.noConfusion hout

/-- C3 (amended): on every input line containing at least one token,
parsing followed by dispatch always returns a reply string — every failure
inside a handler has already been converted to a message by the
`input_error` decorator, which is modelled by the handlers being total. -/
theorem processLine_total_on_tokens :
    ∀ (today : BDate) (line : String) (book : AddressBook),
      splitWords line.toList ≠ [] →
      ∃ out, processLine today line book = some out := by
  intro today line book h
  cases hw : splitWords line.toList with
  | nil => exact absurd hw h
  | cons a args =>
    have hw' : splitWords line.data = a :: args := hw
    have hp : processLine today line book =
        some (handle_action today (String.mk ((stripL a).map Char.toLower))
          (args.map String.mk) book) := by
      simp [processLine, parse_input, hw']
    exact ⟨_, hp⟩

/-- C3 witness: a concrete command line is processed to a reply. -/
theorem processLine_total_on_tokens_witness :
    ∃ out, processLine ⟨1, 1, 2025⟩ "hello" [] = some out :=
  processLine_total_on_tokens ⟨1, 1, 2025⟩ "hello" [] (by decide)

lemma mem_insertSorted (le : Record → Record → Bool) (x r : Record) :
    ∀ l : List Record, r ∈ insertSorted le x l → r = x ∨ r ∈ l := by
  intro l
  induction l with
  | nil =>
    intro h
    simp only [insertSorted, List.mem_singleton] at h
    exact Or.inl h
  | cons y ys ih =>
    intro h
    by_cases hle : le x y = true
    · simp only [insertSorted, hle, if_true, List.mem_cons] at h
      rcases h with rfl | h2
      · exact Or.inl rfl
      · exact Or.inr (List.mem_cons.mpr h2)
    · have hle' : le x y = false := Bool.eq_false_iff.mpr hle
      simp only [insertSorted, hle', Bool.false_eq_true, if_false, List.mem_cons] at h
      rcases h with rfl | h2
      · exact Or.inr (List.mem_cons_self r ys)
      · rcases ih h2 with rfl | h3
        · exact Or.inl rfl
        · exact Or.inr (List.mem_cons_of_mem y h3)

lemma mem_sortRecords (le : Record → Record → Bool) (r : Record) :
    ∀ l : List Record, r ∈ sortRecords le l → r ∈ l := by
  intro l
  induction l with
  | nil => intro h; cases h
  | cons x xs ih =>
    intro h
    rcases mem_insertSorted le x r (sortRecords le xs) h with rfl | h2
    · exact List.mem_cons_self r xs
    · exact List.mem_cons_of_mem x (ih h2)

/-- C4 counterexample: with today 14.03.2025 (a Friday) and Anna's birthday
15.03.1990, the computed occurrence 15.03.2025 is a Saturday and the
congratulation date of the weekend policy is Monday 17.03.2025; yet the
reply of the `birthdays` handler renders the stored birthday 15.03.1990 and
contains no occurrence of the Monday date at all, so the date reported to
the user is not the following Monday. -/
theorem birthdays_weekend_monday_not_reported :
    get_upcoming_birthdays ⟨14, 3, 2025⟩ [⟨"Anna", ["1234567890"], some ⟨15, 3, 1990⟩⟩] =
      [⟨"Anna", ["1234567890"], some ⟨15, 3, 1990⟩⟩] ∧
    occurrenceRD ⟨14, 3, 2025⟩ ⟨15, 3, 1990⟩ % 7 = 6 ∧
    congDateRD ⟨14, 3, 2025⟩ ⟨15, 3, 1990⟩ = rd ⟨17, 3, 2025⟩ ∧
    rd ⟨17, 3, 2025⟩ % 7 = 1 ∧
    (birthdays ⟨14, 3, 2025⟩ [] [⟨"Anna", ["1234567890"], some ⟨15, 3, 1990⟩⟩]).1 =
      "Upcoming birthday within the next week: Anna - 15.03.1990, Phones: 1234567890" ∧
    strContains
      (birthdays ⟨14, 3, 2025⟩ [] [⟨"Anna", ["1234567890"], some ⟨15, 3, 1990⟩⟩]).1
      "17.03" = false := by
  decide

/-- C4 (amended): the weekend-shifted congratulation date is used only to
select and order the upcoming list; the reply of `birthdays` renders, for
each included contact, the stored birthday itself (the contacts are the
stored records, unaltered), so the stored birthday — not the shifted
Monday — is the date shown to the user. -/
theorem birthdays_reports_stored :
    ∀ (today : BDate) (args : List String) (book : AddressBook),
      get_upcoming_birthdays today book ≠ [] →
      birthdays today args book =
        (String.intercalate "\n"
          (List.map birthdayLine (get_upcoming_birthdays today book)), book) ∧
      get_upcoming_birthdays today book ⊆ book := by
  intro today args book h
  constructor
  · have hne : List.isEmpty (get_upcoming_birthdays today book) = false := by
      cases hg : get_upcoming_birthdays today book with
      | nil => exact absurd hg h
      | cons x xs => rfl
    simp only [birthdays, hne, Bool.false_eq_true, if_false]
  · intro r hr
    have h2 : r ∈ List.filter (eligible today) book :=
      mem_sortRecords (recLE today) r (List.filter (eligible today) book) hr
    exact List.mem_of_mem_filter h2

/-- C4 witness: a weekday-occurrence contact is listed with its stored
birthday rendered in the reply. -/
theorem birthdays_reports_stored_witness :
    birthdays ⟨14, 3, 2025⟩ [] [⟨"Ann", ["1112223334"], some ⟨18, 3, 1991⟩⟩] =
      (String.intercalate "\n"
        (List.map birthdayLine
          (get_upcoming_birthdays ⟨14, 3, 2025⟩ [⟨"Ann", ["1112223334"], some ⟨18, 3, 1991⟩⟩])),
        [⟨"Ann", ["1112223334"], some ⟨18, 3, 1991⟩⟩]) ∧
    get_upcoming_birthdays ⟨14, 3, 2025⟩ [⟨"Ann", ["1112223334"], some ⟨18, 3, 1991⟩⟩] ⊆
      [⟨"Ann", ["1112223334"], some ⟨18, 3, 1991⟩⟩] :=
  birthdays_reports_stored ⟨14, 3, 2025⟩ [] [⟨"Ann", ["1112223334"], some ⟨18, 3, 1991⟩⟩]
    (by decide)

end ContactBot
